import Mathlib

/-!
Shallow embedding of the contact-import and rich-text-editor components
(`client/src/components/CSVImporter.tsx`, `client/src/components/RichTextEditor.tsx`).
JavaScript strings are modelled as Lean `String`s (the editor's buffer as
`List Char`), JS `undefined` column selections as the empty string (both are
falsy and are only ever tested for truthiness before use), and the React
handlers as pure state transformers.

The file-import path of `CSVImporter.tsx` writes its regexes and escape
strings with doubled backslashes: `/\\r?\\n/` (lines 115, 249) matches only
literal backslash text and never a real newline, `/\\D/g` (line 289) removes
only literal `\D` two-character sequences, `'\\ufeff'` (lines 122, 258) is
the six-character text `\ufeff`, and the tab delimiter candidate (line 214)
is the two-character string `\t` (which `new RegExp` reads as a tab when
counting, but which `split` treats as literal text). These are modelled
literally. The direct-paste path (lines 630–646) uses ordinary single
escapes and is modelled accordingly.
-/

namespace Morningstar

/-!
JS-string primitives, implemented structurally over the underlying
character list so that they compute by kernel reduction.
-/

/-- JS whitespace test for `trim` (the characters that occur in this
codebase's inputs). -/
def isJsWhitespace (c : Char) : Bool :=
  c == ' ' || c == '\t' || c == '\n' || c == '\r' || c == '\uFEFF' || c == '\u00A0'

/-- JS `s.trim()`. -/
def jsTrim (s : String) : String :=
  String.mk (((s.data.dropWhile isJsWhitespace).reverse.dropWhile
    isJsWhitespace).reverse)

/-- JS `t.startsWith(u)` on character lists. -/
def jsStartsWith (s t : String) : Bool :=
  t.data.isPrefixOf s.data

/-- JS `t.endsWith(u)`. -/
def jsEndsWith (s t : String) : Bool :=
  t.data.isSuffixOf s.data

/-- JS `s.substring(n)` for dropping a known number of leading characters. -/
def jsDropLeft (s : String) (n : Nat) : String :=
  String.mk (s.data.drop n)

/-- JS `s.substring(0, s.length - n)` for dropping trailing characters. -/
def jsDropRight (s : String) (n : Nat) : String :=
  String.mk ((s.data.reverse.drop n).reverse)

/-- JS `s.toLowerCase()` (ASCII, which covers every label compared here). -/
def jsToLower (s : String) : String :=
  String.mk (s.data.map Char.toLower)

/-- Split a character list on a single separator character
(JS `s.split(sep)` for a one-character separator). -/
def splitOnChar (sep : Char) : List Char → List (List Char)
  | [] => [[]]
  | c :: rest =>
    match splitOnChar sep rest with
    | [] => [[]]
    | cur :: done =>
      if c == sep then [] :: cur :: done else (c :: cur) :: done

/-- JS `s.split(sep)` for a one-character separator. -/
def jsSplit (s : String) (sep : Char) : List String :=
  (splitOnChar sep s.data).map String.mk

/-- Split on the source's regex `/\\r?\\n/` (lines 115, 249): its pattern is
literal backslash, optional `r`, literal backslash, literal `n`, so the
separators are the character sequences `\`,`r`,`\`,`n` and `\`,`\`,`n` —
never a real newline. Backslash-free text is returned whole. -/
def splitEscLines : List Char → List (List Char)
  | [] => [[]]
  | '\\' :: 'r' :: '\\' :: 'n' :: rest => [] :: splitEscLines rest
  | '\\' :: '\\' :: 'n' :: rest => [] :: splitEscLines rest
  | c :: rest =>
    match splitEscLines rest with
    | [] => [[c]]
    | cur :: done => (c :: cur) :: done

/-- Split on a two-character literal separator (JS `s.split(sep)` with a
two-character string). -/
def splitOnPair (a b : Char) : List Char → List (List Char)
  | [] => [[]]
  | [x] => [[x]]
  | x :: y :: rest =>
    if x == a && y == b then [] :: splitOnPair a b rest
    else
      match splitOnPair a b (y :: rest) with
      | [] => [[x]]
      | cur :: done => (x :: cur) :: done

/-- JS `s.split(sep)` with a literal string separator, for the one- and
two-character separators this component uses. -/
def jsSplitStr (s : String) (sep : String) : List String :=
  match sep.data with
  | [c] => (splitOnChar c s.data).map String.mk
  | [a, b] => (splitOnPair a b s.data).map String.mk
  | _ => [s]

/-- The `ContactImport` record type of `CSVImporter.tsx`. -/
structure ContactImport where
  name : String
  phoneNumber : String
  isValid : Bool
deriving Repr, DecidableEq

/-- JS `s.replace(/\D/g, '')` (the direct-paste path's single-escaped
regex, line 633): keep only ASCII digits. -/
def stripNonDigits (s : String) : String :=
  String.mk (s.data.filter Char.isDigit)

/-- Remove every occurrence of the two-character sequence `\`,`D`. -/
def stripEscD : List Char → List Char
  | [] => []
  | '\\' :: 'D' :: rest => stripEscD rest
  | c :: rest => c :: stripEscD rest

/-- The file path's `phoneNumber.replace(/\\D/g, '')` (line 289): the
pattern is literal backslash then `D`, so only literal `\D` text is
removed; ordinary phone text is left unchanged. -/
def jsReplaceEscD (s : String) : String :=
  String.mk (stripEscD s.data)

/-- JS `cell.replace(/^"|"$/g, '')`: drop one leading and one trailing
double-quote when present. -/
def dequote (s : String) : String :=
  let s1 := if jsStartsWith s "\"" then jsDropLeft s 1 else s
  if jsEndsWith s1 "\"" then jsDropRight s1 1 else s1

/-- `cell.trim().replace(/^"|"$/g, '')`, applied to every header and data cell. -/
def cleanCell (s : String) : String :=
  dequote (jsTrim s)

/-- Number of occurrences of the single-character delimiter `d` in `line`
(JS `(line.match(new RegExp(d, 'g')) || []).length` for a one-char `d`). -/
def countChar (line : String) (d : Char) : Nat :=
  (line.data.filter (fun c => c == d)).length

/-- The character matched by `new RegExp(d, 'g')` for the three delimiter
candidate strings of line 214: the two-character candidate `\t`
(backslash, `t`) is read by the regex engine as a tab character; the
one-character candidates denote themselves. -/
def candidateChar (d : String) : Char :=
  if d == "\\t" then '\t' else d.data.headD ' '

/-- `detectDelimiter` (CSVImporter.tsx lines 213–227): fold over the
candidate strings `","`, `";"`, `"\t"` (the last being the two-character
text backslash-`t`), counting matches of `new RegExp(candidate)` and
keeping the first candidate whose count strictly exceeds the best count so
far; the initial best is `","` with count 0. -/
def detectDelimiter (headerLine : String) : String :=
  (([",", ";", "\\t"].foldl
    (fun acc d =>
      let count := countChar headerLine (candidateChar d)
      if count > acc.2 then (d, count) else acc)
    (",", 0))).1

/-- Phone normalization of the file-import path (lines 289–294): apply the
double-escaped `replace(/\\D/g, '')` — which removes only literal `\D`
text, not non-digit characters — then prepend "55" when the result has
length ≤ 12 and does not already start with "55". -/
def normalizePhone (raw : String) : String :=
  let phoneNumber := jsReplaceEscD raw
  if phoneNumber.length ≤ 12 ∧ ¬ jsStartsWith phoneNumber "55" then
    "55" ++ phoneNumber
  else
    phoneNumber

/-- Validity test of the file-import path (line 297). -/
def isValidPhone (raw : String) : Bool :=
  decide ((normalizePhone raw).length ≥ 12)

/-- `csv.split(/\\r?\\n/).filter(line => line.trim().length > 0)` (lines
115, 249): because the regex only matches literal backslash text, a
backslash-free file yields the single "line" `[csv]`. -/
def nonEmptyLines (csv : String) : List String :=
  ((splitEscLines csv.data).map String.mk).filter (fun l => jsTrim l ≠ "")

/-- Split a line on the detected delimiter string and clean each cell
(`line.split(delimiter).map(cell => cell.trim().replace(/^"|"$/g, ''))`);
`split` with a string separator is literal, so the `"\t"` candidate splits
on the two-character text backslash-`t`, not on tabs. -/
def splitRow (line : String) (delim : String) : List String :=
  (jsSplitStr line delim).map cleanCell

/-- The loop body of `validateAndMapContacts` (lines 285–303) applied to one
row's cleaned cell values. -/
def rowToContact (values : List String) (nameIdx phoneIdx : Nat) : ContactImport :=
  { name := values.getD nameIdx ""
    phoneNumber := normalizePhone (values.getD phoneIdx "")
    isValid := isValidPhone (values.getD phoneIdx "") }

/-- The mapping loop of `validateAndMapContacts` (lines 273–304): for each
data line (index ≥ 1), skip blank lines and rows with too few columns,
otherwise emit the mapped contact, preserving order. -/
def mapContacts (lines : List String) (delim : String) (nameIdx phoneIdx : Nat) :
    List ContactImport :=
  (lines.drop 1).filterMap (fun line =>
    if jsTrim line = "" then none
    else
      let values := splitRow line delim
      if values.length ≤ max nameIdx phoneIdx then none
      else some (rowToContact values nameIdx phoneIdx))

/-- The direct-paste mapper (lines 630–640): split on `'\n'`, trim and strip
non-digits, drop empty digit strings, then build one record per remaining
digit string. -/
def mapDirectInput (text : String) : List ContactImport :=
  let numbers := ((jsSplit text '\n').map
    (fun n => stripNonDigits (jsTrim n))).filter (fun n => n.length > 0)
  numbers.map (fun phoneNumber =>
    { name := phoneNumber
      phoneNumber := if jsStartsWith phoneNumber "55" then phoneNumber
                     else "55" ++ phoneNumber
      isValid := decide (phoneNumber.length ≥ 10) })

/-- Does `sub` occur as a contiguous substring of `l`? (JS `String.includes`.) -/
def subOccurs (sub : List Char) : List Char → Bool
  | [] => sub.isEmpty
  | c :: rest => sub.isPrefixOf (c :: rest) || subOccurs sub rest

/-- JS `s.includes(sub)`. -/
def jsIncludes (s sub : String) : Bool :=
  subOccurs sub.data s.data

/-- The name-column auto-guess predicate (CSVImporter.tsx lines 131–139):
`h.toLowerCase().trim()` equals one of the four known labels, or contains
`"nome"` or `"name"`. -/
def isNameHeader (h : String) : Bool :=
  let normalized := jsTrim (jsToLower h)
  normalized == "nome" ||
  normalized == "name" ||
  normalized == "cliente" ||
  normalized == "contato" ||
  jsIncludes normalized "nome" ||
  jsIncludes normalized "name"

/-- The phone-column auto-guess predicate (lines 141–154): exact match against
seven labels, or containment of `"telefone"`, `"phone"`, `"celular"`, or
`"whatsapp"`. -/
def isPhoneHeader (h : String) : Bool :=
  let normalized := jsTrim (jsToLower h)
  normalized == "telefone" ||
  normalized == "phone" ||
  normalized == "celular" ||
  normalized == "whatsapp" ||
  normalized == "numero" ||
  normalized == "number" ||
  normalized == "tel" ||
  jsIncludes normalized "telefone" ||
  jsIncludes normalized "phone" ||
  jsIncludes normalized "celular" ||
  jsIncludes normalized "whatsapp"

/-- `headers.findIndex(isNameHeader)`, as an `Option Nat`. -/
def guessNameIdx (headers : List String) : Option Nat :=
  headers.findIdx? isNameHeader

/-- `headers.findIndex(isPhoneHeader)`, as an `Option Nat`. -/
def guessPhoneIdx (headers : List String) : Option Nat :=
  headers.findIdx? isPhoneHeader

/-- The source's BOM check text: `'\\ufeff'` (lines 122, 258) is the
six-character literal `\ufeff`, not a real U+FEFF. -/
def bomStr : String := "\\ufeff"

/-- Header extraction of `processCSV` (lines 114–128): first "line" of the
literal-backslash split (the whole file for ordinary CSV), with the literal
`\ufeff` text check (dropping one character) before delimiter detection,
then split on the delimiter and cleaned. `none` when no non-blank "line"
exists. -/
def parseCSVHeaders (csv : String) : Option (List String) :=
  match nonEmptyLines csv with
  | [] => none
  | l0 :: _ =>
    let headerLine := if jsStartsWith l0 bomStr then jsDropLeft l0 1 else l0
    some (splitRow headerLine (detectDelimiter headerLine))

/-- Errors of the second-pass mapping (`validateAndMapContacts`). -/
inductive MapErr where
  | emptyInput
  | columnNotFound
deriving Repr, DecidableEq

/-- Second-pass BOM fix (line 258): if the first cleaned header starts with
the literal text `\ufeff`, drop one character (the backslash), after the
split. -/
def fixBomHead : List String → List String
  | [] => []
  | h :: t => (if jsStartsWith h bomStr then jsDropLeft h 1 else h) :: t

/-- The whole mapping pass of `validateAndMapContacts` (lines 246–304): the
literal-backslash line split (one "line" for ordinary files), delimiter
detection on the first "line", header extraction and cleaning, column
resolution by exact equality (`headers.indexOf`), then the data-row loop
over the remaining "lines" (none for ordinary files); the thrown
"Colunas selecionadas não encontradas" error becomes `MapErr.columnNotFound`. -/
def mapContactsFromCSV (csv nameColumn phoneColumn : String) :
    Except MapErr (List ContactImport) :=
  match nonEmptyLines csv with
  | [] => .error .emptyInput
  | l0 :: rest =>
    let delim := detectDelimiter l0
    let headers := fixBomHead (splitRow l0 delim)
    match headers.findIdx? (fun h => h == nameColumn) with
    | none => .error .columnNotFound
    | some nameIdx =>
      match headers.findIdx? (fun h => h == phoneColumn) with
      | none => .error .columnNotFound
      | some phoneIdx => .ok (mapContacts (l0 :: rest) delim nameIdx phoneIdx)

/-- The four values of the importer's `step` state. -/
inductive Step where
  | upload
  | map
  | preview
  | confirm
deriving Repr, DecidableEq

/-- User-facing toast notifications relevant to the modelled handlers. -/
inductive ToastKind where
  | columnsRequired
  | processError
  | mapFailed
  | noValidContacts
  | importDone
deriving Repr, DecidableEq

/-- The component state touched by the modelled handlers. -/
structure ImporterState where
  step : Step
  contacts : List ContactImport
  nameColumn : String
  phoneColumn : String
  columns : List String
  isProcessing : Bool
deriving Repr, DecidableEq

/-- The state produced by `resetState` (lines 59–71), which is also the
initial state. -/
def initialState : ImporterState :=
  { step := .upload, contacts := [], nameColumn := "", phoneColumn := "",
    columns := [], isProcessing := false }

/-- `validateAndMapContacts` (lines 229–340) as a state transformer over the
column selections it closed over, returning the new state and any toast. -/
def runValidateAndMap (st : ImporterState) (csv : String) :
    ImporterState × Option ToastKind :=
  if st.nameColumn = "" ∨ st.phoneColumn = "" then
    (st, some .columnsRequired)
  else
    match mapContactsFromCSV csv st.nameColumn st.phoneColumn with
    | .error _ => ({ st with isProcessing := false }, some .mapFailed)
    | .ok cs =>
        ({ st with contacts := cs, isProcessing := false, step := .preview },
         none)

/-- The successful-read branch of `processCSV` (lines 103–199): parse headers,
auto-select the columns (falling back to `headers[0]` / `headers[1]`; a JS
`undefined` selection is modelled as `""`), then call
`validateAndMapContacts`, whose closure still reads the column selections
from the render that created it — that is, from `st`, not from the freshly
set values. -/
def runProcessCSV (st : ImporterState) (csv : String) :
    ImporterState × Option ToastKind :=
  match parseCSVHeaders csv with
  | none => ({ st with isProcessing := false }, some .processError)
  | some headers =>
    let nameSel := match guessNameIdx headers with
      | some i => headers.getD i ""
      | none => headers.getD 0 ""
    let phoneSel := match guessPhoneIdx headers with
      | some i => headers.getD i ""
      | none => headers.getD 1 ""
    let st1 := { st with columns := headers, nameColumn := nameSel,
                         phoneColumn := phoneSel, isProcessing := false }
    if st.nameColumn = "" ∨ st.phoneColumn = "" then
      (st1, some .columnsRequired)
    else
      match mapContactsFromCSV csv st.nameColumn st.phoneColumn with
      | .error _ => ({ st1 with isProcessing := false }, some .mapFailed)
      | .ok cs => ({ st1 with contacts := cs, step := .preview }, none)

/-- The direct-paste `onChange` handler (lines 630–646). -/
def runDirectInput (st : ImporterState) (text : String) : ImporterState :=
  let cs := mapDirectInput text
  let st1 := { st with contacts := cs }
  if cs.length > 0 then { st1 with step := .preview } else st1

/-- `handleConfirm` (lines 342–366): the new state, the argument passed to
`onComplete` (when it is invoked), and the toast. -/
def runHandleConfirm (st : ImporterState) :
    ImporterState × Option (List ContactImport) × ToastKind :=
  let validContacts := st.contacts.filter (fun c => c.isValid)
  if validContacts.length = 0 then
    (st, none, .noValidContacts)
  else
    (initialState, some validContacts, .importDone)

/-- The direct-paste send button (lines 648–661): the new state and the
argument passed to `onComplete` (when it is invoked). -/
def runDirectSend (st : ImporterState) :
    ImporterState × Option (List ContactImport) :=
  let validContacts := st.contacts.filter (fun c => c.isValid)
  if validContacts.length > 0 then
    (initialState, some validContacts)
  else
    (st, none)

/-- The discrete user/IO events that drive the importer's handlers. -/
inductive ImportEvent where
  | fileLoaded (csv : String)
  | mapContinue (csv : String)
  | directInput (text : String)
  | confirmClick
  | directSendClick
  | backFromMap
  | backFromPreview
  | dialogClose

/-- One step of the importer UI: each event fires its handler, guarded by
where the corresponding control is rendered and enabled in the component
(the file input only on the upload step, the Continuar button only on the
map step with both columns chosen and not processing, the confirm button
only on the preview step with at least one valid contact; the direct-paste
controls are on a separate tab and are reachable from any step). -/
def handleEvent (st : ImporterState) (e : ImportEvent) : ImporterState :=
  match e with
  | .fileLoaded csv =>
      if st.step = .upload then (runProcessCSV st csv).1 else st
  | .mapContinue csv =>
      if st.step = .map ∧ st.nameColumn ≠ "" ∧ st.phoneColumn ≠ "" ∧
         st.isProcessing = false then
        (runValidateAndMap st csv).1
      else st
  | .directInput text => runDirectInput st text
  | .confirmClick =>
      if st.step = .preview ∧
         (st.contacts.filter (fun c => c.isValid)).length ≠ 0 then
        (runHandleConfirm st).1
      else st
  | .directSendClick => (runDirectSend st).1
  | .backFromMap => if st.step = .map then { st with step := .upload } else st
  | .backFromPreview =>
      if st.step = .preview then { st with step := .map } else st
  | .dialogClose => initialState

/-- The formatting commands of `RichTextEditor.tsx`'s `formatText`. -/
inductive TextFormat where
  | bold
  | italic
  | strikethrough
  | link (url : Option (List Char))

/-- JS `value.substring(a, b)` on a string modelled as `List Char`:
arguments are swapped when out of order, and clamped to the length. -/
def jsSubstring (v : List Char) (a b : Nat) : List Char :=
  if a ≤ b then (v.take b).drop a else (v.take a).drop b

/-- JS `value.substring(a)`. -/
def jsSubstringFrom (v : List Char) (a : Nat) : List Char :=
  v.drop a

/-- `formatText` (RichTextEditor.tsx lines 34–79) on the editor value with
the selection `[start, finish)`: wrap the selected text in the WhatsApp
marker (or build a link; a cancelled URL prompt returns without change,
modelled as `none`), then splice it between the text before and after the
selection. -/
def formatText (fmt : TextFormat) (value : List Char) (start finish : Nat) :
    Option (List Char) :=
  let selectedText := jsSubstring value start finish
  let formattedText : Option (List Char) :=
    match fmt with
    | .bold => some ('*' :: selectedText ++ ['*'])
    | .italic => some ('_' :: selectedText ++ ['_'])
    | .strikethrough => some ('~' :: selectedText ++ ['~'])
    | .link none => none
    | .link (some url) =>
        some (if selectedText.isEmpty then url
              else '[' :: selectedText ++ ']' :: '(' :: url ++ [')'])
  formattedText.map (fun ft =>
    jsSubstring value 0 start ++ ft ++ jsSubstringFrom value finish)

/-- The single marker character of the three simple formatting commands. -/
def simpleMarker : TextFormat → Option Char
  | .bold => some '*'
  | .italic => some '_'
  | .strikethrough => some '~'
  | .link _ => none

/-- Headers as `validateAndMapContacts` parses them. -/
def secondPassHeaders (csv : String) : List String :=
  match nonEmptyLines csv with
  | [] => []
  | l0 :: _ => fixBomHead (splitRow l0 (detectDelimiter l0))

/-- C1 (code bug): the claim — `phoneNumber` is the mapped phone field with
every non-digit stripped, "55"-prepended exactly when the digit string has
length ≤ 12 and lacks the prefix, valid iff the final length is ≥ 12 —
states the spec's intent, but line 289's double-escaped
`replace(/\\D/g, '')` removes only literal `\D` text: a processed row keeps
its non-digits, e.g. the phone field "(11)12345678901" is stored verbatim
(not its digit string "1112345678901") and marked valid at 15 characters;
and because `/\\r?\\n/` (line 249) never matches a real newline, an
ordinary file's data rows are never processed at all (only literal
backslash separators reach the row loop). -/
theorem C1_phone_normalization_code_bug :
    jsReplaceEscD "(11)12345678901" = "(11)12345678901" ∧
    stripNonDigits "(11)12345678901" = "1112345678901" ∧
    mapContactsFromCSV "Nome,Telefone\\r\\nAna,(11)12345678901" "Nome"
        "Telefone" = .ok [⟨"Ana", "(11)12345678901", true⟩] ∧
    (⟨"Ana", "(11)12345678901", true⟩ : ContactImport).phoneNumber ≠
      stripNonDigits "(11)12345678901" ∧
    mapContactsFromCSV "Nome,Telefone\nAna,11999998888" "Nome"
        "11999998888" = .ok [] :=
  ⟨by decide, by decide, by rfl, by decide, by rfl⟩

/-- C5 (code bug): the digits-only invariant holds on the direct-paste path
(whose `replace(/\D/g, '')` is single-escaped) but fails on the file path:
line 289's `replace(/\\D/g, '')` removes only literal `\D` text, so a
completed file-import batch can contain the phoneNumber "(11)12345678901",
which is not digits-only. -/
theorem C5_phone_digits_code_bug :
    (mapDirectInput "(11)99999-8888\n55 11 98888-7777").all
      (fun c => c.phoneNumber.data.all Char.isDigit) = true ∧
    mapContactsFromCSV "Nome,Telefone\\r\\nAna,(11)12345678901" "Nome"
        "Telefone" = .ok [⟨"Ana", "(11)12345678901", true⟩] ∧
    (⟨"Ana", "(11)12345678901", true⟩ : ContactImport).phoneNumber.data.all
      Char.isDigit = false :=
  ⟨by decide, by rfl, by decide⟩

/-- C10: for every editor value and selection range `[start, finish)`, the
bold, italic and strikethrough commands produce
`value[0..start) ++ marker ++ value[start..finish) ++ marker ++ value[finish..)`;
the text before `start` and the text after `finish` are unchanged. -/
theorem C10_formatText_frame
    (fmt : TextFormat) (m : Char) (v : List Char) (s e : Nat)
    (hm : simpleMarker fmt = some m) (hse : s ≤ e) (hev : e ≤ v.length) :
    formatText fmt v s e =
      some (v.take s ++ ([m] ++ (v.take e).drop s ++ [m]) ++ v.drop e) ∧
    (v.take s ++ ([m] ++ (v.take e).drop s ++ [m]) ++ v.drop e).take s =
      v.take s ∧
    (v.take s ++ ([m] ++ (v.take e).drop s ++ [m]) ++ v.drop e).drop (e + 2) =
      v.drop e := by
  have hsv : s ≤ v.length := le_trans hse hev
  refine ⟨?_, ?_, ?_⟩
  · cases fmt with
    | bold =>
        simp only [simpleMarker, Option.some.injEq] at hm
        subst hm
        simp [formatText, jsSubstring, jsSubstringFrom, hse, Nat.zero_le]
    | italic =>
        simp only [simpleMarker, Option.some.injEq] at hm
        subst hm
        simp [formatText, jsSubstring, jsSubstringFrom, hse, Nat.zero_le]
    | strikethrough =>
        simp only [simpleMarker, Option.some.injEq] at hm
        subst hm
        simp [formatText, jsSubstring, jsSubstringFrom, hse, Nat.zero_le]
    | link url => simp [simpleMarker] at hm
  · rw [List.append_assoc]
    exact List.take_left' (by rw [List.length_take]; omega)
  · exact List.drop_left' (by
      simp only [List.length_append, List.length_take, List.length_drop,
        List.length_cons, List.length_nil]
      omega)

theorem C10_formatText_frame_witness :
    simpleMarker .bold = some '*' ∧ 1 ≤ 3 ∧ 3 ≤ "hello".data.length ∧
    (formatText .bold "hello".data 1 3 =
        some ("hello".data.take 1 ++
          (['*'] ++ ("hello".data.take 3).drop 1 ++ ['*']) ++
          "hello".data.drop 3) ∧
      ("hello".data.take 1 ++
          (['*'] ++ ("hello".data.take 3).drop 1 ++ ['*']) ++
          "hello".data.drop 3).take 1 = "hello".data.take 1 ∧
      ("hello".data.take 1 ++
          (['*'] ++ ("hello".data.take 3).drop 1 ++ ['*']) ++
          "hello".data.drop 3).drop (3 + 2) = "hello".data.drop 3) :=
  ⟨by decide, by decide, by decide,
   C10_formatText_frame .bold '*' "hello".data 1 3 (by decide) (by decide)
     (by decide)⟩

lemma filter_isValid_sublist (cs : List ContactImport) :
    (cs.filter (fun c => c.isValid)).Sublist cs :=
  List.filter_sublist cs

lemma filter_isValid_all (cs : List ContactImport) :
    (cs.filter (fun c => c.isValid)).all (fun c => c.isValid) = true := by
  simp only [List.all_eq_true]
  exact fun c hc => (List.mem_filter.mp hc).2

/-- C2: whenever the importer invokes `onComplete` — from the file-confirm
path or the direct-paste path — the argument is exactly the valid
subsequence of the current batch, in batch order; every forwarded record is
valid, and the callback is never invoked when the batch has no valid
record. -/
theorem C2_onComplete_valid_subsequence (st : ImporterState) :
    (∀ out, (runHandleConfirm st).2.1 = some out →
        out = st.contacts.filter (fun c => c.isValid) ∧
        out.Sublist st.contacts ∧
        out.all (fun c => c.isValid) = true ∧ out ≠ []) ∧
    (∀ out, (runDirectSend st).2 = some out →
        out = st.contacts.filter (fun c => c.isValid) ∧
        out.Sublist st.contacts ∧
        out.all (fun c => c.isValid) = true ∧ out ≠ []) ∧
    ((st.contacts.filter (fun c => c.isValid)).length = 0 →
        (runHandleConfirm st).2.1 = none ∧ (runDirectSend st).2 = none) := by
  refine ⟨?_, ?_, ?_⟩
  · intro out hout
    unfold runHandleConfirm at hout
    by_cases h : (st.contacts.filter (fun c => c.isValid)).length = 0
    · simp [h] at hout
    · simp [h] at hout
      subst hout
      refine ⟨rfl, filter_isValid_sublist _, filter_isValid_all _, ?_⟩
      intro hnil
      exact h (by rw [hnil]; rfl)
  · intro out hout
    unfold runDirectSend at hout
    by_cases h : (st.contacts.filter (fun c => c.isValid)).length > 0
    · simp [h] at hout
      subst hout
      refine ⟨rfl, filter_isValid_sublist _, filter_isValid_all _, ?_⟩
      intro hnil
      rw [hnil] at h
      exact absurd h (by decide)
    · simp [h] at hout
  · intro h
    constructor
    · unfold runHandleConfirm
      simp [h]
    · unfold runDirectSend
      simp [h]

theorem C2_onComplete_valid_subsequence_witness :
    ((runHandleConfirm { initialState with step := Step.preview, contacts := [⟨"a", "5511999990000", true⟩, ⟨"b", "55123", false⟩] }).2.1 =
        some [⟨"a", "5511999990000", true⟩]) ∧
    ([(⟨"a", "5511999990000", true⟩ : ContactImport)] =
        ([⟨"a", "5511999990000", true⟩, ⟨"b", "55123", false⟩] :
          List ContactImport).filter (fun c => c.isValid) ∧
      ([(⟨"a", "5511999990000", true⟩ : ContactImport)]).Sublist
        [⟨"a", "5511999990000", true⟩, ⟨"b", "55123", false⟩] ∧
      ([(⟨"a", "5511999990000", true⟩ : ContactImport)]).all
        (fun c => c.isValid) = true ∧
      [(⟨"a", "5511999990000", true⟩ : ContactImport)] ≠ []) ∧
    ((([] : List ContactImport).filter (fun c => c.isValid)).length = 0 ∧
      (runHandleConfirm initialState).2.1 = none ∧
      (runDirectSend initialState).2 = none) :=
  ⟨by decide,
   (C2_onComplete_valid_subsequence { initialState with step := Step.preview, contacts := [⟨"a", "5511999990000", true⟩, ⟨"b", "55123", false⟩] }).1
     [⟨"a", "5511999990000", true⟩] (by decide),
   by decide,
   (C2_onComplete_valid_subsequence initialState).2.2 (by decide)⟩

/-- C3 counterexample: the line `"abc"` is non-empty after trimming, so the
claim's "one `ContactImport` per non-empty trimmed line" demands one record,
but the mapper filters on the digit-only string and produces none. -/
theorem C3_counterexample :
    jsTrim "abc" ≠ "" ∧ (jsSplit "abc" '\n').length = 1 ∧
    mapDirectInput "abc" = [] := by
  decide

/-- C3 (amended): the direct-input mapper produces one `ContactImport` per
line whose digit-only content is non-empty (not per non-empty trimmed
line): `name` is the line's digit string, `phoneNumber` is that string with
"55" prepended unless it already starts with "55" (no length condition),
`isValid` is true iff the digit length is ≥ 10; `"11999998888\n123"` gives
two records, the first valid, the second (`"55123"`) invalid. -/
theorem C3_direct_input_amended :
    (∀ text : String,
        (mapDirectInput text).map (fun c => c.name) =
          ((jsSplit text '\n').map (fun n => stripNonDigits (jsTrim n))).filter
            (fun n => 0 < n.length)) ∧
    (∀ text : String, ∀ c ∈ mapDirectInput text,
        c.phoneNumber =
          (if jsStartsWith c.name "55" then c.name else "55" ++ c.name) ∧
        (c.isValid = true ↔ 10 ≤ c.name.length)) ∧
    mapDirectInput "11999998888\n123" =
      [⟨"11999998888", "5511999998888", true⟩, ⟨"123", "55123", false⟩] := by
  refine ⟨?_, ?_, by decide⟩
  · intro text
    unfold mapDirectInput
    dsimp only
    rw [List.map_map]
    exact List.map_id _
  · intro text c hc
    unfold mapDirectInput at hc
    dsimp only at hc
    rcases List.mem_map.mp hc with ⟨d, _, rfl⟩
    exact ⟨rfl, decide_eq_true_iff⟩

theorem C3_direct_input_amended_witness :
    ((mapDirectInput "11999998888\n123").map (fun c => c.name) =
      ((jsSplit "11999998888\n123" '\n').map
        (fun n => stripNonDigits (jsTrim n))).filter (fun n => 0 < n.length)) ∧
    ((⟨"123", "55123", false⟩ : ContactImport) ∈
        mapDirectInput "11999998888\n123") ∧
    ((⟨"123", "55123", false⟩ : ContactImport).phoneNumber =
       (if jsStartsWith (⟨"123", "55123", false⟩ : ContactImport).name "55"
        then (⟨"123", "55123", false⟩ : ContactImport).name
        else "55" ++ (⟨"123", "55123", false⟩ : ContactImport).name) ∧
     ((⟨"123", "55123", false⟩ : ContactImport).isValid = true ↔
        10 ≤ (⟨"123", "55123", false⟩ : ContactImport).name.length)) :=
  ⟨C3_direct_input_amended.1 "11999998888\n123",
   by decide,
   C3_direct_input_amended.2.1 "11999998888\n123" ⟨"123", "55123", false⟩
     (by decide)⟩

/-- C4 counterexample: on `";\t;\t"` the semicolon and tab counts tie (2
each, above the comma count), so the claim demands the comma candidate, but
`detectDelimiter` returns `";"`. -/
theorem C4_counterexample :
    countChar ";\t;\t" ';' = countChar ";\t;\t" '\t' ∧
    countChar ";\t;\t" ',' < countChar ";\t;\t" ';' ∧
    detectDelimiter ";\t;\t" = ";" ∧ (";" : String) ≠ "," := by
  decide

/-- C4 (amended): `detectDelimiter` counts occurrences of `','`, `';'` and
the tab character (the tab candidate being the source's two-character string
`\t`, which `new RegExp` reads as a tab) and returns the first candidate, in
that fixed order, whose count strictly exceeds every earlier candidate's
count and is at least every later candidate's count: the tab candidate when
its count strictly exceeds both others, else `";"` when its count strictly
exceeds the comma count, else `","`. Hence a tie resolves to the earliest
tied candidate (so `","` whenever the comma count attains the maximum, and
when all counts are zero), and a line with more semicolons than commas
yields `";"` provided tab does not strictly beat the semicolon count. -/
theorem C4_detect_delimiter_amended (line : String) :
    (detectDelimiter line =
      (if countChar line ',' < countChar line '\t' ∧
          countChar line ';' < countChar line '\t' then "\\t"
       else if countChar line ',' < countChar line ';' then ";" else ",")) ∧
    (countChar line ',' = 0 ∧ countChar line ';' = 0 ∧
        countChar line '\t' = 0 → detectDelimiter line = ",") ∧
    (countChar line ',' < countChar line ';' ∧
        countChar line '\t' ≤ countChar line ';' →
        detectDelimiter line = ";") := by
  have expand : detectDelimiter line =
      (let a1 := if countChar line ',' > 0 then (("," : String), countChar line ',')
                 else (",", 0)
       let a2 := if countChar line ';' > a1.2 then ((";" : String), countChar line ';')
                 else a1
       let a3 := if countChar line '\t' > a2.2 then (("\\t" : String), countChar line '\t')
                 else a2
       a3.1) := rfl
  have ha1 : (if countChar line ',' > 0 then (("," : String), countChar line ',')
      else (",", 0)) = (",", countChar line ',') := by
    by_cases h : countChar line ',' > 0
    · simp [h]
    · have h0 : countChar line ',' = 0 := by omega
      simp [h, h0]
  have main : detectDelimiter line =
      (if countChar line ',' < countChar line '\t' ∧
          countChar line ';' < countChar line '\t' then "\\t"
       else if countChar line ',' < countChar line ';' then ";" else ",") := by
    rw [expand, ha1]
    dsimp only
    by_cases h2 : countChar line ';' > countChar line ','
    · rw [if_pos h2]
      dsimp only
      by_cases h3 : countChar line '\t' > countChar line ';'
      · rw [if_pos h3,
          if_pos (⟨by omega, by omega⟩ :
            countChar line ',' < countChar line '\t' ∧
            countChar line ';' < countChar line '\t')]
      · rw [if_neg h3,
          if_neg (show ¬(countChar line ',' < countChar line '\t' ∧
            countChar line ';' < countChar line '\t') by omega),
          if_pos h2]
    · rw [if_neg h2]
      dsimp only
      by_cases h3 : countChar line '\t' > countChar line ','
      · rw [if_pos h3,
          if_pos (⟨by omega, by omega⟩ :
            countChar line ',' < countChar line '\t' ∧
            countChar line ';' < countChar line '\t')]
      · rw [if_neg h3,
          if_neg (show ¬(countChar line ',' < countChar line '\t' ∧
            countChar line ';' < countChar line '\t') by omega)]
        rw [if_neg h2]
  refine ⟨main, ?_, ?_⟩
  · rintro ⟨h1, h2, h3⟩
    rw [main, if_neg (by omega), if_neg (by omega)]
  · rintro ⟨h1, h2⟩
    rw [main, if_neg (by omega), if_pos h1]

theorem C4_detect_delimiter_amended_witness :
    (detectDelimiter "a,b" =
      (if countChar "a,b" ',' < countChar "a,b" '\t' ∧
          countChar "a,b" ';' < countChar "a,b" '\t' then "\\t"
       else if countChar "a,b" ',' < countChar "a,b" ';' then ";" else ",")) ∧
    (countChar "x" ',' = 0 ∧ countChar "x" ';' = 0 ∧ countChar "x" '\t' = 0 ∧
      detectDelimiter "x" = ",") ∧
    (countChar "a;b" ',' < countChar "a;b" ';' ∧
      countChar "a;b" '\t' ≤ countChar "a;b" ';' ∧
      detectDelimiter "a;b" = ";") :=
  ⟨(C4_detect_delimiter_amended "a,b").1,
   ⟨by decide, by decide, by decide,
     (C4_detect_delimiter_amended "x").2.1 (by decide)⟩,
   ⟨by decide, by decide,
     (C4_detect_delimiter_amended "a;b").2.2 (by decide)⟩⟩

/-- C6: when a selected (non-empty) name or phone column does not occur in
the parsed header list, the mapping pass fails with the column-not-found
error, the handler emits only a user-facing toast, and the contact batch and
step are left unchanged. -/
theorem C6_column_not_found_atomic
    (st : ImporterState) (csv : String)
    (hname : st.nameColumn ≠ "") (hphone : st.phoneColumn ≠ "")
    (hnon : nonEmptyLines csv ≠ [])
    (habs : st.nameColumn ∉ secondPassHeaders csv ∨
            st.phoneColumn ∉ secondPassHeaders csv) :
    mapContactsFromCSV csv st.nameColumn st.phoneColumn =
      .error .columnNotFound ∧
    (runValidateAndMap st csv).1.contacts = st.contacts ∧
    (runValidateAndMap st csv).1.step = st.step ∧
    (runValidateAndMap st csv).2 = some .mapFailed := by
  have hmap : mapContactsFromCSV csv st.nameColumn st.phoneColumn =
      .error .columnNotFound := by
    unfold mapContactsFromCSV
    cases hcsv : nonEmptyLines csv with
    | nil => exact absurd hcsv hnon
    | cons l0 rest =>
      dsimp only
      have hsp : secondPassHeaders csv =
          fixBomHead (splitRow l0 (detectDelimiter l0)) := by
        unfold secondPassHeaders
        rw [hcsv]
      rcases habs with h | h
      · have hidx : (fixBomHead (splitRow l0 (detectDelimiter l0))).findIdx?
            (fun x => x == st.nameColumn) = none := by
          rw [List.findIdx?_eq_none_iff]
          intro x hx
          simp only [beq_eq_false_iff_ne, ne_eq]
          rintro rfl
          exact h (hsp ▸ hx)
        rw [hidx]
      · have hidx : (fixBomHead (splitRow l0 (detectDelimiter l0))).findIdx?
            (fun x => x == st.phoneColumn) = none := by
          rw [List.findIdx?_eq_none_iff]
          intro x hx
          simp only [beq_eq_false_iff_ne, ne_eq]
          rintro rfl
          exact h (hsp ▸ hx)
        rw [hidx]
        cases (fixBomHead (splitRow l0 (detectDelimiter l0))).findIdx?
            (fun x => x == st.nameColumn) <;> rfl
  have hguard : ¬(st.nameColumn = "" ∨ st.phoneColumn = "") :=
    not_or.mpr ⟨hname, hphone⟩
  refine ⟨hmap, ?_, ?_, ?_⟩ <;>
    · unfold runValidateAndMap
      rw [if_neg hguard, hmap]

theorem C6_column_not_found_atomic_witness :
    ({ initialState with nameColumn := "zz", phoneColumn := "b", step := Step.map }.nameColumn ≠ "" ∧
      { initialState with nameColumn := "zz", phoneColumn := "b", step := Step.map }.phoneColumn ≠ "" ∧
      nonEmptyLines "a,b\n1,2" ≠ [] ∧
      ("zz" : String) ∉ secondPassHeaders "a,b\n1,2") ∧
    (mapContactsFromCSV "a,b\n1,2" "zz" "b" = .error .columnNotFound ∧
      (runValidateAndMap { initialState with nameColumn := "zz", phoneColumn := "b", step := Step.map } "a,b\n1,2").1.contacts = [] ∧
      (runValidateAndMap { initialState with nameColumn := "zz", phoneColumn := "b", step := Step.map } "a,b\n1,2").1.step = Step.map ∧
      (runValidateAndMap { initialState with nameColumn := "zz", phoneColumn := "b", step := Step.map } "a,b\n1,2").2 = some .mapFailed) :=
  ⟨⟨by decide, by decide, by decide, by decide⟩,
   C6_column_not_found_atomic
     { initialState with nameColumn := "zz", phoneColumn := "b", step := Step.map }
     "a,b\n1,2" (by decide) (by decide) (by decide) (Or.inl (by decide))⟩

lemma step_runValidateAndMap (st : ImporterState) (csv : String) :
    (runValidateAndMap st csv).1.step = st.step ∨
    (runValidateAndMap st csv).1.step = .preview := by
  unfold runValidateAndMap
  split
  · exact Or.inl rfl
  · split
    · exact Or.inl rfl
    · exact Or.inr rfl

lemma step_runProcessCSV (st : ImporterState) (csv : String) :
    (runProcessCSV st csv).1.step = st.step ∨
    (runProcessCSV st csv).1.step = .preview := by
  unfold runProcessCSV
  split
  · exact Or.inl rfl
  · dsimp only
    split
    · exact Or.inl rfl
    · split
      · exact Or.inl rfl
      · exact Or.inr rfl

lemma step_runDirectInput (st : ImporterState) (text : String) :
    (runDirectInput st text).step = st.step ∨
    (runDirectInput st text).step = .preview := by
  unfold runDirectInput
  dsimp only
  split
  · exact Or.inr rfl
  · exact Or.inl rfl

lemma step_runHandleConfirm (st : ImporterState) :
    (runHandleConfirm st).1.step = st.step ∨
    (runHandleConfirm st).1.step = .upload := by
  unfold runHandleConfirm
  dsimp only
  split
  · exact Or.inl rfl
  · exact Or.inr rfl

lemma step_runDirectSend (st : ImporterState) :
    (runDirectSend st).1.step = st.step ∨
    (runDirectSend st).1.step = .upload := by
  unfold runDirectSend
  dsimp only
  split
  · exact Or.inr rfl
  · exact Or.inl rfl

lemma handleEvent_ne_confirm (st : ImporterState) (e : ImportEvent)
    (h : st.step ≠ .confirm) : (handleEvent st e).step ≠ .confirm := by
  cases e with
  | fileLoaded csv =>
      by_cases hs : st.step = .upload
      · simp only [handleEvent, if_pos hs]
        rcases step_runProcessCSV st csv with h2 | h2 <;> rw [h2]
        · exact h
        · decide
      · simp only [handleEvent, if_neg hs]
        exact h
  | mapContinue csv =>
      by_cases hs : st.step = .map ∧ st.nameColumn ≠ "" ∧
          st.phoneColumn ≠ "" ∧ st.isProcessing = false
      · simp only [handleEvent, if_pos hs]
        rcases step_runValidateAndMap st csv with h2 | h2 <;> rw [h2]
        · exact h
        · decide
      · simp only [handleEvent, if_neg hs]
        exact h
  | directInput text =>
      simp only [handleEvent]
      rcases step_runDirectInput st text with h2 | h2 <;> rw [h2]
      · exact h
      · decide
  | confirmClick =>
      by_cases hs : st.step = .preview ∧
          (st.contacts.filter (fun c => c.isValid)).length ≠ 0
      · simp only [handleEvent, if_pos hs]
        rcases step_runHandleConfirm st with h2 | h2 <;> rw [h2]
        · exact h
        · decide
      · simp only [handleEvent, if_neg hs]
        exact h
  | directSendClick =>
      simp only [handleEvent]
      rcases step_runDirectSend st with h2 | h2 <;> rw [h2]
      · exact h
      · decide
  | backFromMap =>
      by_cases hs : st.step = .map
      · simp only [handleEvent, if_pos hs]
        decide
      · simp only [handleEvent, if_neg hs]
        exact h
  | backFromPreview =>
      by_cases hs : st.step = .preview
      · simp only [handleEvent, if_pos hs]
        decide
      · simp only [handleEvent, if_neg hs]
        exact h
  | dialogClose =>
      simp only [handleEvent]
      decide

lemma handleEvent_upload_ne_map (st : ImporterState) (e : ImportEvent)
    (h : st.step = .upload) : (handleEvent st e).step ≠ .map := by
  cases e with
  | fileLoaded csv =>
      by_cases hs : st.step = .upload
      · simp only [handleEvent, if_pos hs]
        rcases step_runProcessCSV st csv with h2 | h2 <;> rw [h2]
        · rw [h]; decide
        · decide
      · simp only [handleEvent, if_neg hs]
        rw [h]; decide
  | mapContinue csv =>
      have hg : ¬(st.step = .map ∧ st.nameColumn ≠ "" ∧
          st.phoneColumn ≠ "" ∧ st.isProcessing = false) := by
        rintro ⟨h1, -⟩
        rw [h] at h1
        exact absurd h1 (by decide)
      simp only [handleEvent, if_neg hg]
      rw [h]; decide
  | directInput text =>
      simp only [handleEvent]
      rcases step_runDirectInput st text with h2 | h2 <;> rw [h2]
      · rw [h]; decide
      · decide
  | confirmClick =>
      have hg : ¬(st.step = .preview ∧
          (st.contacts.filter (fun c => c.isValid)).length ≠ 0) := by
        rintro ⟨h1, -⟩
        rw [h] at h1
        exact absurd h1 (by decide)
      simp only [handleEvent, if_neg hg]
      rw [h]; decide
  | directSendClick =>
      simp only [handleEvent]
      rcases step_runDirectSend st with h2 | h2 <;> rw [h2]
      · rw [h]; decide
      · decide
  | backFromMap =>
      have hg : ¬ st.step = .map := by
        rw [h]; decide
      simp only [handleEvent, if_neg hg]
      rw [h]; decide
  | backFromPreview =>
      have hg : ¬ st.step = .preview := by
        rw [h]; decide
      simp only [handleEvent, if_neg hg]
      rw [h]; decide
  | dialogClose =>
      simp only [handleEvent]
      decide

lemma mapContinue_needs_columns (st : ImporterState) (csv : String)
    (hm : st.step = .map)
    (hp : (handleEvent st (.mapContinue csv)).step = .preview) :
    st.nameColumn ≠ "" ∧ st.phoneColumn ≠ "" := by
  by_cases hg : st.step = .map ∧ st.nameColumn ≠ "" ∧
      st.phoneColumn ≠ "" ∧ st.isProcessing = false
  · exact ⟨hg.2.1, hg.2.2.1⟩
  · simp only [handleEvent, if_neg hg] at hp
    rw [hm] at hp
    exact absurd hp (by decide)

/-- C7 counterexample: from the upload step, a direct-paste input moves the
step straight to preview — a forward transition the claimed table
(upload→map on parse, map→preview, preview→confirm only) does not contain,
and the map step is never entered on the way. -/
theorem C7_counterexample :
    initialState.step = .upload ∧
    (handleEvent initialState (.directInput "11999998888")).step = .preview := by
  decide

/-- C7 (amended): the step state takes only the four declared values and the
confirm value is never entered — from any state whose step is not confirm no
event produces confirm, and no event trace from the initial state reaches
confirm; from the upload step no event produces the map step (the map step
is only reached by stepping back from preview); and the map→preview
transition of the Continuar button occurs only when both a name column and a
phone column are chosen. The direct-paste tab additionally jumps any step
to preview when it yields at least one record. -/
theorem C7_step_machine_amended :
    (∀ (st : ImporterState) (e : ImportEvent),
        st.step ≠ .confirm → (handleEvent st e).step ≠ .confirm) ∧
    (∀ es : List ImportEvent,
        (es.foldl handleEvent initialState).step ≠ .confirm) ∧
    (∀ (st : ImporterState) (e : ImportEvent),
        st.step = .upload → (handleEvent st e).step ≠ .map) ∧
    (∀ (st : ImporterState) (csv : String),
        st.step = .map →
        (handleEvent st (.mapContinue csv)).step = .preview →
        st.nameColumn ≠ "" ∧ st.phoneColumn ≠ "") := by
  refine ⟨handleEvent_ne_confirm, ?_, handleEvent_upload_ne_map,
    mapContinue_needs_columns⟩
  have gen : ∀ (es : List ImportEvent) (st : ImporterState),
      st.step ≠ .confirm → (es.foldl handleEvent st).step ≠ .confirm := by
    intro es
    induction es with
    | nil => exact fun _ h => h
    | cons e rest ih => exact fun st h => ih _ (handleEvent_ne_confirm st e h)
  exact fun es => gen es initialState (by decide)

theorem C7_step_machine_amended_witness :
    (initialState.step ≠ .confirm ∧
      (handleEvent initialState .dialogClose).step ≠ .confirm) ∧
    (([ImportEvent.directInput "11999998888"].foldl handleEvent
        initialState).step ≠ .confirm) ∧
    (initialState.step = .upload ∧
      (handleEvent initialState .backFromMap).step ≠ .map) ∧
    ({ initialState with step := Step.map, nameColumn := "Nome", phoneColumn := "Telefone" }.step = .map ∧
      (handleEvent { initialState with step := Step.map, nameColumn := "Nome", phoneColumn := "Telefone" }
        (.mapContinue "Nome,Telefone")).step = .preview ∧
      ({ initialState with step := Step.map, nameColumn := "Nome", phoneColumn := "Telefone" }.nameColumn ≠ "" ∧
        { initialState with step := Step.map, nameColumn := "Nome", phoneColumn := "Telefone" }.phoneColumn ≠ "")) :=
  ⟨⟨by decide, C7_step_machine_amended.1 initialState .dialogClose (by decide)⟩,
   C7_step_machine_amended.2.1 [ImportEvent.directInput "11999998888"],
   ⟨by decide,
    C7_step_machine_amended.2.2.1 initialState .backFromMap (by decide)⟩,
   ⟨by decide, by decide,
    C7_step_machine_amended.2.2.2
      { initialState with step := Step.map, nameColumn := "Nome", phoneColumn := "Telefone" }
      "Nome,Telefone" (by decide) (by decide)⟩⟩

/-- C8 counterexample: the header "meu cliente" contains the candidate label
"cliente" as a substring, so the claim demands the guess find it, but the
code applies substring containment only to "nome"/"name" and misses it. -/
theorem C8_counterexample :
    jsIncludes (jsTrim (jsToLower "meu cliente")) "cliente" = true ∧
    isNameHeader "meu cliente" = false ∧
    guessNameIdx ["meu cliente"] = none := by
  decide

/-- C8 (amended): the auto-guess returns the index of the first header whose
lower-cased, trimmed text exactly equals one of the fixed labels (name:
nome, name, cliente, contato; phone: telefone, phone, celular, whatsapp,
numero, number, tel) or contains one of the containment labels — only
nome/name for the name column and only telefone/phone/celular/whatsapp for
the phone column — as a substring, and reports not-found when no header
qualifies; a header exactly equal to "Telefone" (any case) is found for
phone, and "Nome" for name. -/
theorem C8_guess_column_amended :
    (∀ hdr : String, isNameHeader hdr = true ↔
        (jsTrim (jsToLower hdr) = "nome" ∨ jsTrim (jsToLower hdr) = "name" ∨
         jsTrim (jsToLower hdr) = "cliente" ∨
         jsTrim (jsToLower hdr) = "contato" ∨
         jsIncludes (jsTrim (jsToLower hdr)) "nome" = true ∨
         jsIncludes (jsTrim (jsToLower hdr)) "name" = true)) ∧
    (∀ hdr : String, isPhoneHeader hdr = true ↔
        (jsTrim (jsToLower hdr) = "telefone" ∨
         jsTrim (jsToLower hdr) = "phone" ∨
         jsTrim (jsToLower hdr) = "celular" ∨
         jsTrim (jsToLower hdr) = "whatsapp" ∨
         jsTrim (jsToLower hdr) = "numero" ∨
         jsTrim (jsToLower hdr) = "number" ∨
         jsTrim (jsToLower hdr) = "tel" ∨
         jsIncludes (jsTrim (jsToLower hdr)) "telefone" = true ∨
         jsIncludes (jsTrim (jsToLower hdr)) "phone" = true ∨
         jsIncludes (jsTrim (jsToLower hdr)) "celular" = true ∨
         jsIncludes (jsTrim (jsToLower hdr)) "whatsapp" = true)) ∧
    (∀ (headers : List String) (i : Nat),
        guessNameIdx headers = some i ↔
          ∃ hlt : i < headers.length, isNameHeader headers[i] = true ∧
            ∀ (j : Nat) (hj : j < i), ¬ isNameHeader headers[j] = true) ∧
    (∀ headers : List String,
        guessNameIdx headers = none ↔
          ∀ hdr ∈ headers, isNameHeader hdr = false) ∧
    (∀ (headers : List String) (i : Nat),
        guessPhoneIdx headers = some i ↔
          ∃ hlt : i < headers.length, isPhoneHeader headers[i] = true ∧
            ∀ (j : Nat) (hj : j < i), ¬ isPhoneHeader headers[j] = true) ∧
    (∀ headers : List String,
        guessPhoneIdx headers = none ↔
          ∀ hdr ∈ headers, isPhoneHeader hdr = false) ∧
    (∀ hdr : String, jsTrim (jsToLower hdr) = "telefone" →
        isPhoneHeader hdr = true) ∧
    (∀ hdr : String, jsTrim (jsToLower hdr) = "nome" →
        isNameHeader hdr = true) := by
  refine ⟨?_, ?_, ?_, ?_, ?_, ?_, ?_, ?_⟩
  · intro hdr
    simp only [isNameHeader, Bool.or_eq_true, beq_iff_eq]
    tauto
  · intro hdr
    simp only [isPhoneHeader, Bool.or_eq_true, beq_iff_eq]
    tauto
  · intro headers i
    exact List.findIdx?_eq_some_iff_getElem
  · intro headers
    exact List.findIdx?_eq_none_iff
  · intro headers i
    exact List.findIdx?_eq_some_iff_getElem
  · intro headers
    exact List.findIdx?_eq_none_iff
  · intro hdr h
    simp [isPhoneHeader, h]
  · intro hdr h
    simp [isNameHeader, h]

theorem C8_guess_column_amended_witness :
    (jsTrim (jsToLower "Telefone") = "telefone" ∧
      isPhoneHeader "Telefone" = true) ∧
    (jsTrim (jsToLower "Nome") = "nome" ∧ isNameHeader "Nome" = true) :=
  ⟨⟨by decide,
    C8_guess_column_amended.2.2.2.2.2.2.1 "Telefone" (by decide)⟩,
   ⟨by decide,
    C8_guess_column_amended.2.2.2.2.2.2.2 "Nome" (by decide)⟩⟩

lemma runProcessCSV_columns (st : ImporterState) (csv : String)
    (headers : List String) (h : parseCSVHeaders csv = some headers) :
    (runProcessCSV st csv).1.nameColumn =
      (match guessNameIdx headers with
       | some i => headers.getD i ""
       | none => headers.getD 0 "") ∧
    (runProcessCSV st csv).1.phoneColumn =
      (match guessPhoneIdx headers with
       | some i => headers.getD i ""
       | none => headers.getD 1 "") := by
  unfold runProcessCSV
  rw [h]
  dsimp only
  split
  · exact ⟨rfl, rfl⟩
  · split
    · exact ⟨rfl, rfl⟩
    · exact ⟨rfl, rfl⟩

/-- C9 counterexample: parsing the one-header file "x" succeeds, the phone
guess fails, and the fallback reads `headers[1]`, which does not exist; the
resulting phone selection is the JS `undefined` (modelled `""`), so the
claim's "both column selections are always non-empty" fails. -/
theorem C9_counterexample :
    parseCSVHeaders "x" = some ["x"] ∧
    (runProcessCSV initialState "x").1.phoneColumn = "" := by
  decide

/-- C9 (amended): when the auto-guess fails, the file-import pass selects
`headers[0]` as the name column and `headers[1]` as the phone column (the
latter being the JS `undefined`, modelled `""`, when fewer than two headers
exist); when a guess succeeds the guessed header is selected. Both
selections are non-empty after a successful parse provided the header list
has at least two entries and no empty entry. -/
theorem C9_fallback_selection_amended (st : ImporterState) (csv : String)
    (headers : List String) (hparse : parseCSVHeaders csv = some headers) :
    (guessNameIdx headers = none →
        (runProcessCSV st csv).1.nameColumn = headers.getD 0 "") ∧
    (guessPhoneIdx headers = none →
        (runProcessCSV st csv).1.phoneColumn = headers.getD 1 "") ∧
    (∀ i, guessNameIdx headers = some i →
        (runProcessCSV st csv).1.nameColumn = headers.getD i "") ∧
    (∀ i, guessPhoneIdx headers = some i →
        (runProcessCSV st csv).1.phoneColumn = headers.getD i "") ∧
    (2 ≤ headers.length → (∀ hdr ∈ headers, hdr ≠ "") →
        (runProcessCSV st csv).1.nameColumn ≠ "" ∧
        (runProcessCSV st csv).1.phoneColumn ≠ "") := by
  obtain ⟨hn, hp⟩ := runProcessCSV_columns st csv headers hparse
  refine ⟨?_, ?_, ?_, ?_, ?_⟩
  · intro hg
    rw [hn, hg]
  · intro hg
    rw [hp, hg]
  · intro i hg
    rw [hn, hg]
  · intro i hg
    rw [hp, hg]
  · intro hlen hall
    constructor
    · rw [hn]
      cases hg : guessNameIdx headers with
      | none =>
          have h0 : (0 : Nat) < headers.length := by omega
          rw [List.getD_eq_getElem _ _ h0]
          exact hall _ (List.getElem_mem h0)
      | some i =>
          unfold guessNameIdx at hg
          have hi : i < headers.length :=
            (List.findIdx?_eq_some_iff_findIdx_eq.mp hg).1
          dsimp only
          rw [List.getD_eq_getElem _ _ hi]
          exact hall _ (List.getElem_mem hi)
    · rw [hp]
      cases hg : guessPhoneIdx headers with
      | none =>
          have h1 : (1 : Nat) < headers.length := by omega
          rw [List.getD_eq_getElem _ _ h1]
          exact hall _ (List.getElem_mem h1)
      | some i =>
          unfold guessPhoneIdx at hg
          have hi : i < headers.length :=
            (List.findIdx?_eq_some_iff_findIdx_eq.mp hg).1
          dsimp only
          rw [List.getD_eq_getElem _ _ hi]
          exact hall _ (List.getElem_mem hi)

theorem C9_fallback_selection_amended_witness :
    parseCSVHeaders "a;b" = some ["a", "b"] ∧
    (guessNameIdx ["a", "b"] = none ∧
      (runProcessCSV initialState "a;b").1.nameColumn =
        (["a", "b"] : List String).getD 0 "") ∧
    (guessPhoneIdx ["a", "b"] = none ∧
      (runProcessCSV initialState "a;b").1.phoneColumn =
        (["a", "b"] : List String).getD 1 "") ∧
    (2 ≤ (["a", "b"] : List String).length ∧
      (runProcessCSV initialState "a;b").1.nameColumn ≠ "" ∧
      (runProcessCSV initialState "a;b").1.phoneColumn ≠ "") :=
  ⟨by decide,
   ⟨by decide,
    (C9_fallback_selection_amended initialState "a;b" ["a", "b"]
        (by decide)).1 (by decide)⟩,
   ⟨by decide,
    (C9_fallback_selection_amended initialState "a;b" ["a", "b"]
        (by decide)).2.1 (by decide)⟩,
   ⟨by decide,
    ((C9_fallback_selection_amended initialState "a;b" ["a", "b"]
        (by decide)).2.2.2.2 (by decide) (by decide)).1,
    ((C9_fallback_selection_amended initialState "a;b" ["a", "b"]
        (by decide)).2.2.2.2 (by decide) (by decide)).2⟩⟩

end Morningstar
